import Mathlib

/-!
Verification of the SQL Server adapter layer (mcp-db-manager).

The development embeds the string-level logic of the three adapter variants:

* the TypeScript dual-driver adapter (src/unnamed/part_001), which chooses
  between the pooled mssql backend and the direct msnodesqlv8 backend once,
  in its constructor;
* the TypeScript native-only adapter (src/unnamed/part_002);
* the CommonJS adapter (src/src/db/sqlserver-adapter-cjs.js), which chains
  the two backends at init time.

JavaScript string operations are modelled over explicit character lists so
that every definition evaluates by kernel reduction on concrete inputs.
-/

/-- JavaScript String.prototype.trim, modelled on character lists: drop
whitespace from both ends. -/
def jsTrim (cs : List Char) : List Char :=
  ((cs.dropWhile Char.isWhitespace).reverse.dropWhile Char.isWhitespace).reverse

/-- JavaScript String.prototype.toUpperCase, restricted to the ASCII range
used by the adapter. -/
def jsToUpper (cs : List Char) : List Char :=
  cs.map Char.toUpper

/-- Substring test over character lists, structural in the haystack. -/
def containsSub (needle : List Char) : List Char → Bool
  | [] => needle.isEmpty
  | c :: t => needle.isPrefixOf (c :: t) || containsSub needle t

/-- JavaScript String.prototype.includes, through containsSub. -/
def strContains (needle hay : String) : Bool :=
  containsSub needle.data hay.data

/-- The INSERT detection used by run in every variant:
query.trim().toUpperCase().startsWith with the keyword INSERT
(src/unnamed/part_001:310 and 414, src/unnamed/part_002:170). -/
def isInsertQuery (q : String) : Bool :=
  "INSERT".data.isPrefixOf (jsToUpper (jsTrim q.data))

/-- The first space-delimited token of the trimmed query, upper-cased:
query.trim().split at a single space, element 0, toUpperCase, as computed
by getAffectedRows (src/unnamed/part_001:560). -/
def queryType (q : String) : String :=
  String.mk (jsToUpper ((jsTrim q.data).takeWhile (fun c => c != ' ')))

/-- The placeholder rewrite of the pooled backend
(src/unnamed/part_001:276, src/src/db/sqlserver-adapter-cjs.js:177):
query.replace of every question mark through a callback whose second
argument is the match OFFSET in the source string, so each question mark
at offset i becomes the text atParam i. The counter advances one per
character of the original string. -/
def rewriteAux : List Char → Nat → List Char
  | [], _ => []
  | c :: cs, i =>
    if c = '?' then "@param".data ++ (Nat.repr i).data ++ rewriteAux cs (i + 1)
    else c :: rewriteAux cs (i + 1)

/-- The prepared query the pooled backend sends: the placeholder rewrite
applied from offset 0. -/
def mssqlPreparedQuery (q : String) : String :=
  String.mk (rewriteAux q.data 0)

/-- The names under which the pooled backend binds the supplied values:
params.forEach binds value i under the name param i
(src/unnamed/part_001:271, src/src/db/sqlserver-adapter-cjs.js:173). -/
def mssqlBoundParams (params : List α) : List (String × α) :=
  params.enum.map (fun p => ("param" ++ Nat.repr p.1, p.2))

example : mssqlPreparedQuery "SELECT ? AS V" = "SELECT @param7 AS V" := by decide
example : mssqlBoundParams ([42] : List Int) = [("param0", 42)] := by decide
example : isInsertQuery " insert into t values (1)" = true := by decide
example : queryType "  update t set x = 1" = "UPDATE" := by decide
example : strContains "xy" "zzxyzz" = true := by decide

/-- A row of a driver result set, keeping only the LastID column that the
identity extraction reads (src/unnamed/part_001:337). A missing or null
column is none. -/
structure SqlRow where
  LastID : Option Int
deriving DecidableEq

/-- The shapes the msnodesqlv8 callback result can take, following the
runtime type tests the code performs on it (src/unnamed/part_001:334-378):
an array of rows, a bare number, a non-array object exposing rowsAffected,
or a null-like value. -/
inductive DriverResults where
  | rows (rs : List SqlRow)
  | num (n : Int)
  | objRowsAffected (n : Int)
  | nullish
deriving DecidableEq

/-- JavaScript truthiness of the optional numeric LastID column. -/
def numTruthy : Option Int → Bool
  | some n => n != 0
  | none => false

/-- JavaScript Number conversion of the LastID column, used after the
truthiness test. -/
def jsNumber (x : Option Int) : Int :=
  x.getD 0

/-- The result record of run (src/unnamed/part_001:294). -/
structure RunResult where
  changes : Int
  lastID : Int
deriving DecidableEq

/-- Identity extraction of the native run path
(src/unnamed/part_001:333-340, src/unnamed/part_002:193-200): the value is
read from the LastID column of the FINAL element of the result array, and
is 0 unless the result is a non-empty array whose final element has a
truthy LastID. -/
def extractLastID : DriverResults → Int
  | DriverResults.rows rs =>
    match rs.getLast? with
    | some r => if numTruthy r.LastID then jsNumber r.LastID else 0
    | none => 0
  | _ => 0

/-- The affected-rows count of the native non-INSERT path
(src/unnamed/part_001:367-378): a bare number passes through, a
rowsAffected property passes through, everything else gives 0. -/
def nonInsertChanges : DriverResults → Int
  | DriverResults.num n => n
  | DriverResults.objRowsAffected n => n
  | _ => 0

/-- The query text the native run path actually sends: INSERT statements
get the SCOPE_IDENTITY retrieval appended (src/unnamed/part_001:315,
src/unnamed/part_002:175). -/
def runNativeQuerySent (q : String) : String :=
  if isInsertQuery q then q ++ "; SELECT SCOPE_IDENTITY() AS LastID" else q

/-- runWithNativeDriver (src/unnamed/part_001:305-388) and the identical
run of the native-only adapter (src/unnamed/part_002:165-248), as a
function of the query text and the driver result for the sent query. -/
def runWithNativeDriver (q : String) (results : DriverResults) : RunResult :=
  if isInsertQuery q then
    let lastID := extractLastID results
    ⟨if 0 < lastID then 1 else 0, lastID⟩
  else
    ⟨nonInsertChanges results, 0⟩

/-- JavaScript x or-else 0 (the falsy values of an optional integer map
to 0), as in lastID = result.output.insertedId or-else 0
(src/unnamed/part_001:418). -/
def orZero : Option Int → Int
  | some n => if n = 0 then 0 else n
  | none => 0

/-- getAffectedRows (src/unnamed/part_001:559-565): 1 exactly when the
first space-delimited token of the trimmed query is INSERT and a positive
identity came back, else 0. -/
def getAffectedRows (q : String) (lastID : Int) : Int :=
  if queryType q = "INSERT" ∧ 0 < lastID then 1 else 0

/-- runWithMssql (src/unnamed/part_001:393-431) as a function of the query
text and the insertedId output value the pool reports (none when the
backend returns no identity). -/
def runWithMssql (q : String) (insertedId : Option Int) : RunResult :=
  let lastID : Int := if isInsertQuery q then orZero insertedId else 0
  ⟨getAffectedRows q lastID, lastID⟩

/-- prepareNativeQuery (src/unnamed/part_001:436-448) and prepareQuery
(src/unnamed/part_002:253-264): an empty parameter list yields the query
with an empty array, otherwise query and parameters pass through. -/
def prepareNativeQuery (q : String) (params : List α) : String × List α :=
  if params.isEmpty then (q, []) else (q, params)

/-- A call made to the native driver: the query text and the parameter
array handed over, none when the call passes no parameter argument at
all. -/
structure DriverCall (α : Type) where
  queryText : String
  paramsArg : Option (List α)
deriving DecidableEq

/-- The driver call issued by allWithNativeDriver
(src/unnamed/part_001:240-253): prepared query plus prepared parameter
array. -/
def allWithNativeDriverCall (q : String) (params : List α) : DriverCall α :=
  ⟨(prepareNativeQuery q params).1, some (prepareNativeQuery q params).2⟩

/-- The driver call issued by allDirect of the CommonJS adapter
(src/src/db/sqlserver-adapter-cjs.js:189-202): only the connection string,
the raw query and the callback are passed; the params argument of
allDirect is never forwarded. -/
def allDirectCall (q : String) (params : List α) : DriverCall α :=
  ⟨q, none⟩

example : runWithNativeDriver "UPDATE t SET x = 1" (DriverResults.num 5) = ⟨5, 0⟩ := by decide
example : runWithNativeDriver "INSERT INTO t VALUES (1)" (DriverResults.rows [⟨some 7⟩]) = ⟨1, 7⟩ := by decide
example : runWithMssql "INSERT INTO t VALUES (1)" (some 5) = ⟨1, 5⟩ := by decide
example : runWithMssql "INSERT\nINTO t VALUES (1)" (some 5) = ⟨0, 5⟩ := by decide

/-- The mutable state of the TypeScript dual-driver adapter that the query
gates read: the backend flag useNativeDriver fixed by the constructor
(src/unnamed/part_001:31, 44-60) and whether the pool handle is non-null. -/
structure TsState where
  useNativeDriver : Bool
  pool : Bool
deriving DecidableEq

/-- How a query method call is dispatched: rejected as not initialized,
routed to the native backend, or routed to the mssql pool. -/
inductive QueryOutcome where
  | notInitialized
  | native
  | mssqlPool
deriving DecidableEq

/-- Dispatch of all (src/unnamed/part_001:219-225 with the pool guard of
allWithMssql at 263-265): the native branch performs no initialization
check; the mssql branch rejects when the pool is null. -/
def tsAll (s : TsState) : QueryOutcome :=
  if s.useNativeDriver then QueryOutcome.native
  else if !s.pool then QueryOutcome.notInitialized
  else QueryOutcome.mssqlPool

/-- Dispatch of run (src/unnamed/part_001:291-300 with the pool guard of
runWithMssql at 397-399). -/
def tsRun (s : TsState) : QueryOutcome :=
  if s.useNativeDriver then QueryOutcome.native
  else if !s.pool then QueryOutcome.notInitialized
  else QueryOutcome.mssqlPool

/-- Dispatch of exec (src/unnamed/part_001:455-461 with the pool guard of
execWithMssql at 482-484). -/
def tsExec (s : TsState) : QueryOutcome :=
  if s.useNativeDriver then QueryOutcome.native
  else if !s.pool then QueryOutcome.notInitialized
  else QueryOutcome.mssqlPool

/-- close of the dual-driver adapter (src/unnamed/part_001:497-505): a
no-op on the native backend, otherwise the pool is closed and nulled. -/
def tsClose (s : TsState) : TsState :=
  if s.useNativeDriver then s else ⟨s.useNativeDriver, false⟩

/-- init of the dual-driver adapter (src/unnamed/part_001:136-192) as a
state transition: on the native backend only a probe query runs and the
state is untouched; on the mssql backend a successful connect stores the
pool and a failed one throws, leaving the state as it was. -/
def tsInit (s : TsState) (connectOk : Bool) : TsState :=
  if s.useNativeDriver then s
  else if connectOk then ⟨s.useNativeDriver, true⟩ else s

/-- The mutable state of the CommonJS adapter: the pool handle and the
usingDirectConnection flag (src/src/db/sqlserver-adapter-cjs.js:12-13,
126). -/
structure CjsState where
  pool : Bool
  usingDirect : Bool
deriving DecidableEq

/-- The state right after the CommonJS constructor runs: no pool, and
usingDirectConnection still unset, hence falsy. -/
def cjsNew : CjsState :=
  ⟨false, false⟩

/-- The two backends of the CommonJS adapter. -/
inductive CjsBackend where
  | pooled
  | direct
deriving DecidableEq

/-- Which backend a query on the CommonJS adapter would use, following the
branch order of all (src/src/db/sqlserver-adapter-cjs.js:160-169): the
direct flag is consulted first, then the pool; none when neither is
set. -/
def cjsActiveBackend (s : CjsState) : Option CjsBackend :=
  if s.usingDirect then some CjsBackend.direct
  else if s.pool then some CjsBackend.pooled
  else none

/-- Dispatch of all on the CommonJS adapter
(src/src/db/sqlserver-adapter-cjs.js:159-184): with neither pool nor
direct flag the call throws Database not initialized; otherwise the
direct flag wins over the pool. -/
def cjsAll (s : CjsState) : QueryOutcome :=
  if !s.pool && !s.usingDirect then QueryOutcome.notInitialized
  else if s.usingDirect then QueryOutcome.native
  else QueryOutcome.mssqlPool

/-- close of the CommonJS adapter (src/src/db/sqlserver-adapter-cjs.js:
207-214): the pool is closed and nulled, and usingDirectConnection is
reset to false. -/
def cjsClose (s : CjsState) : CjsState :=
  ⟨false, false⟩

/-- init of the CommonJS adapter (src/src/db/sqlserver-adapter-cjs.js:
69-97) as a function of the outcomes of the two connection attempts: the
mssql attempt runs first and on success stores the pool; only on its
failure the direct attempt runs, on success setting the direct flag; when
both fail, init rejects with the direct error message wrapped. -/
def cjsInit (s : CjsState) (mssqlR directR : Except String Unit) :
    Except String CjsState :=
  match mssqlR with
  | Except.ok _ => Except.ok ⟨true, s.usingDirect⟩
  | Except.error _ =>
    match directR with
    | Except.ok _ => Except.ok ⟨s.pool, true⟩
    | Except.error m =>
      Except.error ("Failed to connect to SQL Server: " ++ m)

example : cjsAll (cjsClose ⟨false, true⟩) = QueryOutcome.notInitialized := by decide
example : tsAll (tsClose ⟨true, false⟩) = QueryOutcome.native := by decide

/-- The construction input of the adapters (src/unnamed/part_001:8-18,
src/unnamed/part_002:7-16): optional fields are none when omitted, and the
free-form options map is a key-value list. -/
structure ConnectionInfo where
  server : String
  database : String
  user : Option String
  password : Option String
  port : Option Nat
  trustServerCertificate : Option Bool
  driverVersion : Option String
  options : List (String × String)

/-- JavaScript truthiness of an optional string: present and non-empty. -/
def strTruthy : Option String → Bool
  | some s => !s.isEmpty
  | none => false

/-- JavaScript truthiness of an optional boolean: present and true. -/
def boolTruthy : Option Bool → Bool
  | some b => b
  | none => false

/-- connectionInfo.driverVersion with the or-else default 17
(src/unnamed/part_001:40, src/unnamed/part_002:35). -/
def driverVersionOf (ci : ConnectionInfo) : String :=
  match ci.driverVersion with
  | some v => if v.isEmpty then "17" else v
  | none => "17"

/-- The authentication part of the native connection string
(src/unnamed/part_001:107-113, src/unnamed/part_002:49-55): UID and PWD
with SQL authentication when user and password are both truthy, otherwise
Trusted_Connection. -/
def authSegment (ci : ConnectionInfo) : String :=
  if strTruthy ci.user ∧ strTruthy ci.password then
    "Driver=\x7bODBC Driver " ++ driverVersionOf ci ++ " for SQL Server\x7d;Server="
      ++ ci.server ++ ";Database=" ++ ci.database ++ ";UID=" ++ ci.user.getD ""
      ++ ";PWD=" ++ ci.password.getD "" ++ ";"
  else
    "Driver=\x7bODBC Driver " ++ driverVersionOf ci ++ " for SQL Server\x7d;Server="
      ++ ci.server ++ ";Database=" ++ ci.database ++ ";Trusted_Connection=Yes;"

/-- The TrustServerCertificate clause of the native connection string
(src/unnamed/part_001:116-118, src/unnamed/part_002:58-60): appended
exactly when the flag is truthy, so an omitted flag appends nothing. -/
def trustSegment (ci : ConnectionInfo) : String :=
  if boolTruthy ci.trustServerCertificate then "TrustServerCertificate=Yes;" else ""

/-- The Port clause of the native connection string
(src/unnamed/part_001:121-123, src/unnamed/part_002:63-65): appended when
the port is truthy, so 0 or an omitted port appends nothing. -/
def portSegment (ci : ConnectionInfo) : String :=
  match ci.port with
  | some p => if p ≠ 0 then "Port=" ++ Nat.repr p ++ ";" else ""
  | none => ""

/-- The free-form options appended at the end of the native connection
string (src/unnamed/part_001:126-130, src/unnamed/part_002:68-72). -/
def optionsSegment (ci : ConnectionInfo) : String :=
  ci.options.foldl (fun acc kv => acc ++ kv.1 ++ "=" ++ kv.2 ++ ";") ""

/-- prepareConnectionString (src/unnamed/part_001:104-131,
src/unnamed/part_002:46-73): the four parts concatenated in the order the
code appends them. -/
def prepareConnectionString (ci : ConnectionInfo) : String :=
  authSegment ci ++ trustSegment ci ++ portSegment ci ++ optionsSegment ci

/-- The trustServerCertificate value placed in the pooled mssql config:
the nullish-coalescing default true (src/unnamed/part_001:83,
src/src/db/sqlserver-adapter-cjs.js:39). -/
def mssqlConfigTrustServerCertificate (ci : ConnectionInfo) : Bool :=
  ci.trustServerCertificate.getD true

example : mssqlConfigTrustServerCertificate ⟨"H", "d", none, none, none, none, none, []⟩ = true := by
  decide

example :
    prepareConnectionString ⟨"HOST", "db", none, none, none, none, none, []⟩ =
      "Driver=\x7bODBC Driver 17 for SQL Server\x7d;Server=HOST;Database=db;Trusted_Connection=Yes;" := by
  decide

/-- getListTablesQuery (src/unnamed/part_001:527-529,
src/unnamed/part_002:311-313). -/
def getListTablesQuery : String :=
  "SELECT TABLE_NAME as name FROM INFORMATION_SCHEMA.TABLES WHERE TABLE_TYPE = \x27BASE TABLE\x27 ORDER BY TABLE_NAME"

/-- The text of the describe-table template before the interpolated table
name (src/unnamed/part_001:536-550, src/unnamed/part_002:320-334). -/
def describeHead : String :=
  "\n      SELECT \n        c.COLUMN_NAME as name,\n        c.DATA_TYPE as type,\n        CASE WHEN c.IS_NULLABLE = \x27YES\x27 THEN 1 ELSE 0 END as notnull,\n        CASE WHEN pk.CONSTRAINT_TYPE = \x27PRIMARY KEY\x27 THEN 1 ELSE 0 END as pk,\n        c.COLUMN_DEFAULT as dflt_value\n      FROM \n        INFORMATION_SCHEMA.COLUMNS c\n      LEFT JOIN \n        INFORMATION_SCHEMA.KEY_COLUMN_USAGE kcu ON c.TABLE_NAME = kcu.TABLE_NAME AND c.COLUMN_NAME = kcu.COLUMN_NAME\n      LEFT JOIN \n        INFORMATION_SCHEMA.TABLE_CONSTRAINTS pk ON kcu.CONSTRAINT_NAME = pk.CONSTRAINT_NAME AND pk.CONSTRAINT_TYPE = \x27PRIMARY KEY\x27\n      WHERE \n        c.TABLE_NAME = \x27"

/-- The text of the describe-table template after the interpolated table
name (src/unnamed/part_001:550-553, src/unnamed/part_002:334-337). -/
def describeTail : String :=
  "\x27\n      ORDER BY \n        c.ORDINAL_POSITION\n    "

/-- getDescribeTableQuery (src/unnamed/part_001:535-554,
src/unnamed/part_002:319-338): the template literal with the table name
interpolated verbatim between the two fixed chunks. -/
def getDescribeTableQuery (tableName : String) : String :=
  describeHead ++ tableName ++ describeTail

/-- JavaScript single-character split: the list of chunks between
occurrences of the separator. -/
def splitOnCharAux (sep : Char) : List Char → List Char → List (List Char)
  | [], acc => [acc.reverse]
  | c :: cs, acc =>
    if c = sep then acc.reverse :: splitOnCharAux sep cs []
    else splitOnCharAux sep cs (c :: acc)

/-- JavaScript String.prototype.split with a one-character separator. -/
def jsSplit (sep : Char) (cs : List Char) : List (List Char) :=
  splitOnCharAux sep cs []

/-- The named-instance parse of the constructor
(src/unnamed/part_001:62-71): when the server string contains a backslash
it is split there into server name and instance name, otherwise the
instance name stays undefined. -/
def parseServer (server : String) : String × Option String :=
  if strContains "\\" server then
    (String.mk ((jsSplit '\\' server.data).headD []),
     some (String.mk (((jsSplit '\\' server.data).drop 1).headD [])))
  else
    (server, none)

/-- JavaScript string coercion of a possibly-undefined string, as
performed by the + operator: undefined becomes the text undefined. -/
def jsStringCoerce : Option String → String
  | some s => s
  | none => "undefined"

/-- The server field of the pooled mssql config in the dual-driver
adapter (src/unnamed/part_001:79): serverName + backslash + instanceName,
concatenated unconditionally. -/
def mssqlConfigServer (server : String) : String :=
  (parseServer server).1 ++ "\\" ++ jsStringCoerce (parseServer server).2

example : mssqlConfigServer "HOST" = "HOST\\undefined" := by decide
example : mssqlConfigServer "HOST\\SQLEXPRESS" = "HOST\\SQLEXPRESS" := by decide
example : strContains "TrustServerCertificate"
    (prepareConnectionString ⟨"HOST", "db", none, none, none, none, none, []⟩) = false := by decide

/-- If the upper-cased first token of the trimmed query is exactly INSERT,
then the trimmed upper-cased query starts with INSERT: the token is a
prefix of the trimmed text, and upper-casing preserves prefixes. -/
theorem isInsertQuery_of_queryType (q : String) (h : queryType q = "INSERT") :
    isInsertQuery q = true := by
  have h2 : jsToUpper ((jsTrim q.data).takeWhile (fun c => c != ' ')) = "INSERT".data :=
    congrArg String.data h
  have h3 : jsToUpper ((jsTrim q.data).takeWhile (fun c => c != ' ')) <+:
      jsToUpper (jsTrim q.data) :=
    List.IsPrefix.map Char.toUpper (List.takeWhile_prefix _)
  have h4 : "INSERT".data <+: jsToUpper (jsTrim q.data) := h2 ▸ h3
  simpa [isInsertQuery, List.isPrefixOf_iff_prefix] using h4

/-- A prefix of the haystack is found by containsSub. -/
theorem containsSub_of_prefix (n h : List Char) (hp : n <+: h) :
    containsSub n h = true := by
  cases h with
  | nil =>
    have hn : n = [] := List.prefix_nil.mp hp
    simp [containsSub, hn]
  | cons c t =>
    simp [containsSub, List.isPrefixOf_iff_prefix, hp]

/-- containsSub finds the needle wherever it sits between two other
chunks. -/
theorem containsSub_sandwich (pre n post : List Char) :
    containsSub n (pre ++ (n ++ post)) = true := by
  induction pre with
  | nil => exact containsSub_of_prefix n (n ++ post) (List.prefix_append n post)
  | cons c pre ih => simp [containsSub, ih]

/-- Claim C1 (code bug, evaluated at the failing input): for the query
SELECT ? AS V with the single parameter 42, the pooled rewrite names the
placeholder after its character OFFSET, producing a query that references
the name param7, while the value is bound under the name param0; the
rewritten query never mentions the bound name, so the claimed
correspondence between substituted and bound names fails. -/
theorem c1_offset_naming_bug :
    mssqlPreparedQuery "SELECT ? AS V" = "SELECT @param7 AS V" ∧
    mssqlBoundParams ([42] : List Int) = [("param0", 42)] ∧
    strContains "@param0" (mssqlPreparedQuery "SELECT ? AS V") = false :=
  ⟨by decide, by decide, by decide⟩

/-- Claim C2 fails as stated: on the native backend a non-INSERT run
passes a numeric driver result straight through as changes, so changes is
neither 0 nor reserved to INSERT statements. -/
theorem c2_counterexample_native_update_changes :
    isInsertQuery "UPDATE t SET x = 1" = false ∧
    (runWithNativeDriver "UPDATE t SET x = 1" (DriverResults.num 5)).changes = 5 :=
  ⟨by decide, by decide⟩

/-- Claim C2 (amended): a non-INSERT run always resolves with lastID 0 on
both backends; changes is 0 on the pooled backend, and on the native
backend whenever the driver returns an ordinary row array (the code passes
a numeric or rowsAffected count through when the driver supplies one); on
the pooled backend changes is 1 only for an INSERT statement. -/
theorem c2_non_insert_run :
    (∀ (q : String) (insertedId : Option Int), isInsertQuery q = false →
        runWithMssql q insertedId = ⟨0, 0⟩) ∧
    (∀ (q : String) (r : DriverResults), isInsertQuery q = false →
        (runWithNativeDriver q r).lastID = 0) ∧
    (∀ (q : String) (rs : List SqlRow), isInsertQuery q = false →
        (runWithNativeDriver q (DriverResults.rows rs)).changes = 0) ∧
    (∀ (q : String) (insertedId : Option Int),
        (runWithMssql q insertedId).changes = 1 → isInsertQuery q = true) := by
  refine ⟨?_, ?_, ?_, ?_⟩
  · intro q insertedId h
    simp [runWithMssql, h, getAffectedRows]
  · intro q r h
    simp [runWithNativeDriver, h]
  · intro q rs h
    simp [runWithNativeDriver, h, nonInsertChanges]
  · intro q insertedId h
    by_cases hq : queryType q = "INSERT"
    · exact isInsertQuery_of_queryType q hq
    · exfalso
      simp [runWithMssql, getAffectedRows, hq] at h

/-- Witness for the amended claim C2 at a concrete DELETE statement. -/
theorem c2_non_insert_run_witness :
    isInsertQuery "DELETE FROM t WHERE id = 1" = false ∧
    runWithMssql "DELETE FROM t WHERE id = 1" none = ⟨0, 0⟩ :=
  ⟨by decide, c2_non_insert_run.1 "DELETE FROM t WHERE id = 1" none (by decide)⟩

/-- Claim C3 fails as stated: for an INSERT statement whose keyword is
followed by a newline instead of a space, the pooled run resolves with a
positive lastID taken from the returned identity and yet reports
changes 0, because getAffectedRows compares the first space-delimited
token of the query with INSERT while the INSERT branch was chosen by a
prefix match. -/
theorem c3_counterexample_newline_insert :
    isInsertQuery "INSERT\nINTO t (a) VALUES (1)" = true ∧
    runWithMssql "INSERT\nINTO t (a) VALUES (1)" (some 5) = ⟨0, 5⟩ :=
  ⟨by decide, by decide⟩

/-- Claim C3 (amended): on the native backend an INSERT run resolves with
lastID v and changes 1 when the final element of the returned result array
carries a positive identity v, and with lastID 0 (and changes 0) when the
array is empty or its final element carries no identity; on the pooled
backend lastID is the returned identity when one comes back and 0
otherwise, but changes is 1 only when additionally the first
space-delimited token of the trimmed query is exactly INSERT. -/
theorem c3_insert_last_id :
    (∀ (q : String) (rs : List SqlRow) (r : SqlRow) (v : Int),
        isInsertQuery q = true → rs.getLast? = some r → r.LastID = some v → 0 < v →
        runWithNativeDriver q (DriverResults.rows rs) = ⟨1, v⟩) ∧
    (∀ q : String, isInsertQuery q = true →
        runWithNativeDriver q (DriverResults.rows []) = ⟨0, 0⟩) ∧
    (∀ (q : String) (rs : List SqlRow) (r : SqlRow),
        isInsertQuery q = true → rs.getLast? = some r → r.LastID = none →
        runWithNativeDriver q (DriverResults.rows rs) = ⟨0, 0⟩) ∧
    (∀ (q : String) (v : Int), isInsertQuery q = true → 0 < v →
        (runWithMssql q (some v)).lastID = v) ∧
    (∀ q : String, isInsertQuery q = true → (runWithMssql q none).lastID = 0) ∧
    (∀ (q : String) (v : Int), queryType q = "INSERT" → 0 < v →
        runWithMssql q (some v) = ⟨1, v⟩) := by
  refine ⟨?_, ?_, ?_, ?_, ?_, ?_⟩
  · intro q rs r v hins hlast hlid hv
    have hvne : v ≠ 0 := ne_of_gt hv
    simp [runWithNativeDriver, hins, extractLastID, hlast, hlid, numTruthy, jsNumber,
      hvne, hv]
  · intro q hins
    simp [runWithNativeDriver, hins, extractLastID]
  · intro q rs r hins hlast hlid
    simp [runWithNativeDriver, hins, extractLastID, hlast, hlid, numTruthy]
  · intro q v hins hv
    have hvne : v ≠ 0 := ne_of_gt hv
    simp [runWithMssql, hins, orZero, hvne]
  · intro q hins
    simp [runWithMssql, hins, orZero, getAffectedRows]
  · intro q v hq hv
    have hins := isInsertQuery_of_queryType q hq
    have hvne : v ≠ 0 := ne_of_gt hv
    simp [runWithMssql, hins, orZero, hvne, getAffectedRows, hq, hv]

/-- Witness for the amended claim C3 at a concrete INSERT with identity
7 in the final element of the result array. -/
theorem c3_insert_last_id_witness :
    isInsertQuery "INSERT INTO t (a) VALUES (1)" = true ∧
    runWithNativeDriver "INSERT INTO t (a) VALUES (1)"
      (DriverResults.rows [⟨some 7⟩]) = ⟨1, 7⟩ :=
  ⟨by decide,
   c3_insert_last_id.1 "INSERT INTO t (a) VALUES (1)" [⟨some 7⟩] ⟨some 7⟩ 7
     (by decide) rfl rfl (by decide)⟩

/-- Claim C4 fails as stated: the CommonJS allDirect forwards the query
but never passes the parameter array to the native driver call. -/
theorem c4_counterexample_all_direct_drops_params :
    allDirectCall "SELECT ? AS V" ([42] : List Int) = ⟨"SELECT ? AS V", none⟩ ∧
    (allDirectCall "SELECT ? AS V" ([42] : List Int)).paramsArg ≠ some [42] :=
  ⟨rfl, by decide⟩

/-- Claim C4 (amended): in the TypeScript adapters the direct path is the
identity on the query text and forwards the parameter array as-is (an
empty array when no parameters are given); the CommonJS allDirect forwards
the query text unchanged but passes no parameter argument at all. -/
theorem c4_native_passthrough :
    (∀ (α : Type) (q : String) (params : List α),
        prepareNativeQuery q params = (q, params)) ∧
    (∀ (α : Type) (q : String) (params : List α),
        allWithNativeDriverCall q params = ⟨q, some params⟩) ∧
    (∀ (α : Type) (q : String) (params : List α),
        (allDirectCall q params).queryText = q ∧
        (allDirectCall q params).paramsArg = none) := by
  have hprep : ∀ (α : Type) (q : String) (params : List α),
      prepareNativeQuery q params = (q, params) := by
    intro α q params
    cases params with
    | nil => simp [prepareNativeQuery]
    | cons a l => simp [prepareNativeQuery]
  refine ⟨hprep, ?_, ?_⟩
  · intro α q params
    simp [allWithNativeDriverCall, hprep]
  · intro α q params
    exact ⟨rfl, rfl⟩

/-- Claim C5 fails as stated: on the CommonJS adapter the direct backend
does NOT remain callable after close, because close resets the
usingDirectConnection flag and the shared gate in all then throws the
not-initialized error. -/
theorem c5_counterexample_cjs_direct_closed :
    cjsAll ⟨false, true⟩ = QueryOutcome.native ∧
    cjsAll (cjsClose ⟨false, true⟩) = QueryOutcome.notInitialized :=
  ⟨by decide, by decide⟩

/-- Claim C5 (amended): after close, every query method of the TypeScript
dual-driver adapter on the pooled backend rejects as not initialized,
while on the native backend close is a no-op and the query methods keep
dispatching to the native path unchanged; on the CommonJS adapter close
additionally clears the direct flag, so there every query after close
rejects as not initialized on both backends. -/
theorem c5_close_then_query :
    (∀ s : TsState, s.useNativeDriver = false →
        tsAll (tsClose s) = QueryOutcome.notInitialized ∧
        tsRun (tsClose s) = QueryOutcome.notInitialized ∧
        tsExec (tsClose s) = QueryOutcome.notInitialized) ∧
    (∀ s : TsState, s.useNativeDriver = true →
        tsClose s = s ∧
        tsAll (tsClose s) = QueryOutcome.native ∧
        tsRun (tsClose s) = QueryOutcome.native ∧
        tsExec (tsClose s) = QueryOutcome.native) ∧
    (∀ s : CjsState, cjsAll (cjsClose s) = QueryOutcome.notInitialized) := by
  refine ⟨?_, ?_, ?_⟩
  · intro s h
    refine ⟨?_, ?_, ?_⟩ <;> simp [tsClose, tsAll, tsRun, tsExec, h]
  · intro s h
    refine ⟨?_, ?_, ?_, ?_⟩ <;> simp [tsClose, tsAll, tsRun, tsExec, h]
  · intro s
    simp [cjsClose, cjsAll]

/-- Witness for the amended claim C5 at concrete adapter states. -/
theorem c5_close_then_query_witness :
    tsAll (tsClose ⟨false, true⟩) = QueryOutcome.notInitialized ∧
    tsAll (tsClose ⟨true, false⟩) = QueryOutcome.native :=
  ⟨(c5_close_then_query.1 ⟨false, true⟩ rfl).1,
   (c5_close_then_query.2.1 ⟨true, false⟩ rfl).2.1⟩

/-- Claim C6 fails as stated: on the CommonJS adapter no backend is active
at construction, the fallback init activates the direct backend, and close
deactivates it again, so the active-backend decision is not fixed at
construction time and both init and close change it. -/
theorem c6_counterexample_cjs_backend_decided_at_init :
    cjsActiveBackend cjsNew = none ∧
    cjsInit cjsNew (Except.error "connect failed") (Except.ok ()) =
      Except.ok ⟨false, true⟩ ∧
    cjsActiveBackend ⟨false, true⟩ = some CjsBackend.direct ∧
    cjsActiveBackend (cjsClose ⟨false, true⟩) = none :=
  ⟨by decide, rfl, by decide, by decide⟩

/-- Claim C6 (amended): in the TypeScript dual-driver adapter the backend
choice is the useNativeDriver flag fixed by the constructor, and neither
init nor close ever changes it; in the CommonJS adapter the active backend
is instead established during init (the pool on a successful mssql
attempt, the direct flag when only the fallback succeeds) and close
deactivates both. -/
theorem c6_backend_decision :
    (∀ (s : TsState) (ok : Bool),
        (tsInit s ok).useNativeDriver = s.useNativeDriver) ∧
    (∀ s : TsState, (tsClose s).useNativeDriver = s.useNativeDriver) ∧
    (∀ (s : CjsState) (d : Except String Unit),
        cjsInit s (Except.ok ()) d = Except.ok ⟨true, s.usingDirect⟩) ∧
    (∀ (s : CjsState) (m : String),
        cjsInit s (Except.error m) (Except.ok ()) = Except.ok ⟨s.pool, true⟩) ∧
    (∀ s : CjsState, (cjsClose s).usingDirect = false ∧ (cjsClose s).pool = false) := by
  refine ⟨?_, ?_, ?_, ?_, ?_⟩
  · intro s ok
    by_cases h : s.useNativeDriver <;> by_cases h2 : ok <;> simp [tsInit, h, h2]
  · intro s
    by_cases h : s.useNativeDriver <;> simp [tsClose, h]
  · intro s d
    rfl
  · intro s m
    rfl
  · intro s
    exact ⟨rfl, rfl⟩

/-- Claim C7 (confirmed): the CommonJS init tries the pooled connection
first and its outcome is independent of the direct attempt whenever the
pooled attempt succeeds; on a pooled failure the direct fallback decides;
init succeeds exactly when one of the two attempts succeeds, and when both
fail it rejects with the wrapped message of the direct attempt. -/
theorem c7_init_fallback_chain :
    (∀ (s : CjsState) (d : Except String Unit),
        cjsInit s (Except.ok ()) d = Except.ok ⟨true, s.usingDirect⟩) ∧
    (∀ (s : CjsState) (m : String),
        cjsInit s (Except.error m) (Except.ok ()) = Except.ok ⟨s.pool, true⟩) ∧
    (∀ (s : CjsState) (m m2 : String),
        cjsInit s (Except.error m) (Except.error m2) =
          Except.error ("Failed to connect to SQL Server: " ++ m2)) ∧
    (∀ (s : CjsState) (mr dr : Except String Unit),
        (∃ t, cjsInit s mr dr = Except.ok t) ↔
          (mr = Except.ok () ∨ dr = Except.ok ())) := by
  refine ⟨fun s d => rfl, fun s m => rfl, fun s m m2 => rfl, ?_⟩
  intro s mr dr
  cases mr with
  | ok u =>
    cases u
    simp [cjsInit]
  | error m =>
    cases dr with
    | ok u =>
      cases u
      simp [cjsInit]
    | error m2 =>
      simp [cjsInit]

/-- Witness for claim C7: both attempts failing at concrete messages
yields the wrapped direct error. -/
theorem c7_init_fallback_chain_witness :
    cjsInit cjsNew (Except.error "pool refused") (Except.error "boom") =
      Except.error ("Failed to connect to SQL Server: " ++ "boom") :=
  c7_init_fallback_chain.2.2.1 cjsNew "pool refused" "boom"

/-- Claim C8 fails as stated: with trustServerCertificate omitted, the
pooled config does default the flag to true, but the native connection
string contains no TrustServerCertificate option at all. -/
theorem c8_counterexample_omitted_trust :
    mssqlConfigTrustServerCertificate ⟨"HOST", "db", none, none, none, none, none, []⟩ = true ∧
    strContains "TrustServerCertificate"
      (prepareConnectionString ⟨"HOST", "db", none, none, none, none, none, []⟩) = false :=
  ⟨by decide, by decide⟩

/-- Claim C8 (amended): when trustServerCertificate is omitted the pooled
config sets it to true, but the native connection string appends its
TrustServerCertificate=Yes clause only when the flag is explicitly true;
an omitted flag contributes nothing to the string. -/
theorem c8_trust_certificate_default :
    (∀ ci : ConnectionInfo, ci.trustServerCertificate = none →
        mssqlConfigTrustServerCertificate ci = true ∧ trustSegment ci = "") ∧
    (∀ ci : ConnectionInfo, ci.trustServerCertificate = some true →
        trustSegment ci = "TrustServerCertificate=Yes;") ∧
    (∀ ci : ConnectionInfo, prepareConnectionString ci =
        authSegment ci ++ trustSegment ci ++ portSegment ci ++ optionsSegment ci) := by
  refine ⟨?_, ?_, fun ci => rfl⟩
  · intro ci h
    constructor
    · simp [mssqlConfigTrustServerCertificate, h]
    · simp [trustSegment, boolTruthy, h]
  · intro ci h
    simp [trustSegment, boolTruthy, h]

/-- Witness for the amended claim C8 at a concrete construction input
without the flag and one with the flag set to true. -/
theorem c8_trust_certificate_default_witness :
    mssqlConfigTrustServerCertificate ⟨"srv", "d", some "sa", some "x", some 1433, none, none, []⟩ = true ∧
    trustSegment ⟨"srv", "d", some "sa", some "x", some 1433, none, none, []⟩ = "" ∧
    trustSegment ⟨"srv", "d", some "sa", some "x", some 1433, some true, none, []⟩ =
      "TrustServerCertificate=Yes;" :=
  ⟨(c8_trust_certificate_default.1 ⟨"srv", "d", some "sa", some "x", some 1433, none, none, []⟩ rfl).1,
   (c8_trust_certificate_default.1 ⟨"srv", "d", some "sa", some "x", some 1433, none, none, []⟩ rfl).2,
   c8_trust_certificate_default.2.1 ⟨"srv", "d", some "sa", some "x", some 1433, some true, none, []⟩ rfl⟩

/-- Claim C9 (confirmed): the two schema helpers are fixed string-valued
functions of their inputs: the list-tables text is one constant, the
describe-table text is the fixed template with the table name interpolated
verbatim between its two constant chunks, and in particular any table
name, escaped or not, occurs as a substring of the produced SQL. -/
theorem c9_schema_queries :
    getListTablesQuery =
      "SELECT TABLE_NAME as name FROM INFORMATION_SCHEMA.TABLES WHERE TABLE_TYPE = \x27BASE TABLE\x27 ORDER BY TABLE_NAME" ∧
    (∀ t : String, getDescribeTableQuery t = describeHead ++ t ++ describeTail) ∧
    (∀ t : String, strContains t (getDescribeTableQuery t) = true) := by
  refine ⟨rfl, fun t => rfl, fun t => ?_⟩
  have hdata : (getDescribeTableQuery t).data =
      describeHead.data ++ (t.data ++ describeTail.data) := by
    simp [getDescribeTableQuery, String.data_append, List.append_assoc]
  unfold strContains
  rw [hdata]
  exact containsSub_sandwich _ _ _

/-- Claim C10 (confirmed): when the constructor server string contains no
backslash, the instance name stays undefined and the unconditional
concatenation makes the pooled config server field the host followed by a
backslash and the literal text undefined. -/
theorem c10_unnamed_instance_server (s : String)
    (h : strContains "\\" s = false) :
    mssqlConfigServer s = s ++ "\\undefined" := by
  have hp : parseServer s = (s, none) := by
    simp [parseServer, h]
  have h27 : ("\\" : String) ++ "undefined" = "\\undefined" := by decide
  simp [mssqlConfigServer, hp, jsStringCoerce]
  rw [String.append_assoc, h27]

/-- Witness for claim C10 at the concrete host HOST. -/
theorem c10_unnamed_instance_server_witness :
    strContains "\\" "HOST" = false ∧ mssqlConfigServer "HOST" = "HOST\\undefined" :=
  ⟨by decide, c10_unnamed_instance_server "HOST" (by decide)⟩
